import Mathlib

/-!
Shallow embedding of the transactional user data-access layer
(`src/apps/server/src/db/userDb.ts`, inlined after the controller in
`src/apps/server/src/controllers/userController.ts`).

The TypeScript module wraps a SQLite table

  CREATE TABLE IF NOT EXISTS users (
    id INTEGER PRIMARY KEY AUTOINCREMENT,
    username TEXT NOT NULL UNIQUE,
    email TEXT NOT NULL UNIQUE,
    password_hash TEXT NOT NULL,
    created_at TEXT NOT NULL DEFAULT (datetime('now'))
  );

in five accessors (`createUser`, `getUserById`, `getAllUsers`,
`updateUser`, `deleteUser`) plus a generic `withTransaction` helper.

Modelling choices:
* The database handle plus the state SQLite keeps for it is a `Session`:
  the table rows, the AUTOINCREMENT counter (never reset, so ids are
  never reused), a logical clock standing in for `datetime('now')`, and
  the snapshot taken by an open `BEGIN` (restored by `ROLLBACK`,
  discarded by `COMMIT`).
* JavaScript promise rejection / `throw` is the `Res.err` constructor of
  an explicit outcome type `Res`; side effects performed before a throw
  persist, so `Res.err` carries the session state at throw time.
* Thrown values: `UserNotFoundError` and `UserAlreadyExistsError` carry
  only a message and have no `code` property, while errors surfaced by
  the sqlite driver carry a `code` string such as `SQLITE_CONSTRAINT`
  (the code node-sqlite3 reports for every constraint violation,
  UNIQUE and NOT NULL alike).
* `db.run` on the INSERT / UPDATE / DELETE statements and `db.get` /
  `db.all` on the SELECT statements are modelled from SQLite semantics:
  uniqueness checks against the current rows, `lastID` / `changes`
  metadata, `WHERE id = ?` lookup, `ORDER BY id` sorting.
* With runtime strings for the three text columns, NOT NULL violations
  cannot arise from the statements themselves; constraint-coded errors
  from other sources are still expressible as `Err.sqliteError` values
  and fed to the error-handling code directly where a claim needs them.
-/

/-- A persisted user row (TS type `User`). -/
structure User where
  id : Nat
  username : String
  email : String
  password_hash : String
  created_at : String
deriving DecidableEq, Repr

/-- Caller-supplied fields for creation (TS type `NewUser`). -/
structure NewUser where
  username : String
  email : String
  password_hash : String
deriving DecidableEq, Repr

/-- TS `Partial<NewUser>`: each field may be absent. JavaScript `??`
treats `null` and `undefined` identically, so both are `none`. -/
structure PartialNewUser where
  username : Option String
  email : Option String
  password_hash : Option String
deriving DecidableEq, Repr

/-- Values thrown by the layer: the two custom `Error` subclasses and
driver errors carrying a `code` string. -/
inductive Err where
  | userNotFound (message : String)
  | userAlreadyExists (message : String)
  | sqliteError (code : String) (message : String)
deriving DecidableEq, Repr

/-- The `code` property read by `err.code === 'SQLITE_CONSTRAINT'`:
`undefined` (here `none`) on the custom error classes. -/
def Err.code : Err → Option String
  | .userNotFound _ => none
  | .userAlreadyExists _ => none
  | .sqliteError c _ => some c

/-- Metadata returned by `db.run` (`lastID`, `changes`). -/
structure RunResult where
  lastID : Nat
  changes : Nat
deriving DecidableEq, Repr

/-- The open database handle together with the SQLite state behind it. -/
structure Session where
  table : List User
  nextId : Nat
  clock : Nat
  txSnapshot : Option (List User × Nat)
deriving DecidableEq, Repr

/-- Outcome of an accessor step: JS resolution or rejection, with the
session state it left behind. -/
inductive Res (α : Type) where
  | ok (val : α) (s : Session)
  | err (e : Err) (s : Session)
deriving DecidableEq, Repr

/-- Sequencing of awaited steps: a rejection short-circuits. -/
def Res.bind {α β : Type} : Res α → (α → Session → Res β) → Res β
  | .ok v s, f => f v s
  | .err e s, _ => .err e s

/-- JS `try { body } catch (err) { handler }`: state reached before the
throw persists into the handler. -/
def Res.tryCatch {α : Type} : Res α → (Err → Session → Res α) → Res α
  | .ok v s, _ => .ok v s
  | .err e s, h => h e s

/-- `db.exec('BEGIN')`: snapshot the transactional state (rows and the
AUTOINCREMENT sequence; the wall clock does not roll back). -/
def execBegin (s : Session) : Session :=
  { s with txSnapshot := some (s.table, s.nextId) }

/-- `db.exec('COMMIT')`: close the transaction, keeping its effects. -/
def execCommit (s : Session) : Session :=
  { s with txSnapshot := none }

/-- `db.exec('ROLLBACK')`: restore the snapshot taken at `BEGIN`. -/
def execRollback (s : Session) : Session :=
  match s.txSnapshot with
  | some (t, n) => { s with table := t, nextId := n, txSnapshot := none }
  | none => s

/-- `withTransaction(db, fn)` from the source: BEGIN, run the body,
COMMIT on success; on any rejection ROLLBACK and re-throw unchanged. -/
def withTransaction {α : Type} (fn : Session → Res α) (s : Session) : Res α :=
  match fn (execBegin s) with
  | .ok v s1 => .ok v (execCommit s1)
  | .err e s1 => .err e (execRollback s1)

/-- `db.get('SELECT * FROM users WHERE id = ?', id)`: first row with the
given id, or `undefined`. -/
def selectById (table : List User) (id : Nat) : Option User :=
  table.find? (fun r => r.id == id)

/-- The UNIQUE check SQLite performs for the INSERT: does some present
row already hold the new username or email? -/
def insertConflict (u : NewUser) (table : List User) : Bool :=
  table.any (fun r => r.username == u.username || r.email == u.email)

/-- The row the INSERT adds: the three supplied fields, plus the
store-assigned id (AUTOINCREMENT counter) and `created_at`
(`datetime('now')`, our logical clock). -/
def newRow (u : NewUser) (s : Session) : User :=
  { id := s.nextId, username := u.username, email := u.email,
    password_hash := u.password_hash, created_at := toString s.clock }

/-- `db.run('INSERT INTO users (username, email, password_hash) VALUES
(?, ?, ?)', ...)`: SQLite rejects with code `SQLITE_CONSTRAINT` when the
new row would duplicate a UNIQUE column, otherwise appends the row with
a fresh id and a store-assigned `created_at`. -/
def runInsert (u : NewUser) (s : Session) : Res RunResult :=
  if insertConflict u s.table then
    Res.err (Err.sqliteError "SQLITE_CONSTRAINT" "UNIQUE constraint failed: users") s
  else
    Res.ok { lastID := s.nextId, changes := 1 }
      { s with
        table := s.table ++ [newRow u s]
        nextId := s.nextId + 1
        clock := s.clock + 1 }

/-- The UNIQUE check SQLite performs for the UPDATE: would a rewritten
row duplicate the username or email of a row it does not replace? -/
def updateConflict (id : Nat) (username email : String) (table : List User) : Bool :=
  table.any (fun r => r.id != id && (r.username == username || r.email == email))

/-- The rewrite the UPDATE applies to a row matched by its WHERE clause:
the three SET columns replaced, id and created_at untouched. -/
def writeRow (username email password_hash : String) (r : User) : User :=
  { r with username := username, email := email, password_hash := password_hash }

/-- `db.run('UPDATE users SET username = ?, email = ?, password_hash = ?
WHERE id = ?', ...)`: if a row matches the WHERE clause, SQLite checks
the UNIQUE columns of the rewritten row against the remaining rows and
rejects with code `SQLITE_CONSTRAINT` on a duplicate; otherwise every
matching row is rewritten in place (id and created_at untouched) and
`changes` counts the matches. (The table keeps ids unique — `id` is the
primary key — so at most one row matches.) -/
def runUpdate (id : Nat) (username email password_hash : String) (s : Session) : Res RunResult :=
  if s.table.any (fun r => r.id == id) && updateConflict id username email s.table then
    Res.err (Err.sqliteError "SQLITE_CONSTRAINT" "UNIQUE constraint failed: users") s
  else
    Res.ok { lastID := 0, changes := s.table.countP (fun r => r.id == id) }
      { s with
        table := s.table.map (fun r =>
          if r.id == id then writeRow username email password_hash r else r) }

/-- `db.run('DELETE FROM users WHERE id = ?', id)`: physically removes
every matching row; `changes` counts the removals. -/
def runDelete (id : Nat) (s : Session) : Res RunResult :=
  Res.ok { lastID := 0, changes := s.table.countP (fun r => r.id == id) }
    { s with table := s.table.filter (fun r => r.id != id) }

/-- Comparison used to model `ORDER BY id`. -/
def idLe (a b : User) : Prop :=
  a.id ≤ b.id

instance : DecidableRel idLe :=
  fun a b => inferInstanceAs (Decidable (a.id ≤ b.id))

instance : IsTotal User idLe :=
  ⟨fun a b => Nat.le_total a.id b.id⟩

instance : IsTrans User idLe :=
  ⟨fun _ _ _ h1 h2 => Nat.le_trans h1 h2⟩

/-- `db.all('SELECT * FROM users ORDER BY id')`. -/
def selectAllOrderById (table : List User) : List User :=
  List.insertionSort idLe table

/-- `getUserById(id)` from the source: single read, throws
`UserNotFoundError` when no row has that id. -/
def getUserById (id : Nat) (s : Session) : Res User :=
  match selectById s.table id with
  | some user => Res.ok user s
  | none => Res.err (Err.userNotFound ("User with ID " ++ toString id ++ " not found")) s

/-- `getAllUsers()` from the source. -/
def getAllUsers (s : Session) : Res (List User) :=
  Res.ok (selectAllOrderById s.table) s

/-- The message built for `UserAlreadyExistsError` in `createUser`. -/
def alreadyExistsMessage (u : NewUser) : String :=
  "User with username \"" ++ u.username ++ "\" or email \"" ++ u.email ++ "\" already exists"

/-- The `try` block of `createUser`: INSERT, then read the new row back
by `result.lastID`; a missing read-back row throws `UserNotFoundError`. -/
def createUserBody (u : NewUser) (s : Session) : Res User :=
  Res.bind (runInsert u s) (fun result s1 =>
    match selectById s1.table result.lastID with
    | some newUser => Res.ok newUser s1
    | none => Res.err (Err.userNotFound "User creation failed unexpectedly") s1)

/-- The `catch` block of `createUser`: any error whose `code` is
`SQLITE_CONSTRAINT` becomes `UserAlreadyExistsError`; everything else is
re-thrown unchanged. -/
def createUserHandler (u : NewUser) (e : Err) (s : Session) : Res User :=
  if e.code == some "SQLITE_CONSTRAINT" then
    Res.err (Err.userAlreadyExists (alreadyExistsMessage u)) s
  else
    Res.err e s

/-- `createUser(user)` from the source: the try/catch body inside one
transaction. -/
def createUser (u : NewUser) (s : Session) : Res User :=
  withTransaction (fun s0 => Res.tryCatch (createUserBody u s0) (createUserHandler u)) s

/-- `updateUser(id, updates)` from the source: inside one transaction,
fetch the current row (via `getUserById`, hence `UserNotFoundError` when
absent), fill each missing field from it (`??`), write all three fields
unconditionally, then re-read and return the row. The TS annotation
admits `null` but no code path returns it. -/
def updateUser (id : Nat) (updates : PartialNewUser) (s : Session) : Res User :=
  withTransaction (fun s0 =>
    Res.bind (getUserById id s0) (fun current s1 =>
      Res.bind
        (runUpdate id
          (updates.username.getD current.username)
          (updates.email.getD current.email)
          (updates.password_hash.getD current.password_hash) s1)
        (fun _ s2 => getUserById id s2))) s

/-- `deleteUser(id)` from the source: inside one transaction, read the
row (throwing `UserNotFoundError` when absent), DELETE it, throw
`UserNotFoundError` if `changes` is falsy, else return the pre-deletion
snapshot. -/
def deleteUser (id : Nat) (s : Session) : Res User :=
  withTransaction (fun s0 =>
    match selectById s0.table id with
    | none => Res.err (Err.userNotFound ("User with ID " ++ toString id ++ " not found")) s0
    | some user =>
        Res.bind (runDelete id s0) (fun result s1 =>
          if result.changes == 0 then
            Res.err (Err.userNotFound "User creation failed unexpectedly") s1
          else
            Res.ok user s1)) s

/-- Invariants the SQLite schema enforces on every reachable session:
the primary key and the two UNIQUE columns hold pairwise-distinct
values, the AUTOINCREMENT counter exceeds every present id, and no
transaction is open between accessor calls. -/
def Session.wf (s : Session) : Prop :=
  (s.table.map (fun r => r.id)).Nodup ∧
  (s.table.map (fun r => r.username)).Nodup ∧
  (s.table.map (fun r => r.email)).Nodup ∧
  (∀ r ∈ s.table, r.id < s.nextId) ∧
  s.txSnapshot = none

instance (s : Session) : Decidable s.wf := by
  unfold Session.wf
  infer_instance

/-- The row `updateUser` writes: caller-supplied fields where present,
the current row's values otherwise; id and created_at untouched. -/
def mergeUser (current : User) (updates : PartialNewUser) : User :=
  { current with
    username := updates.username.getD current.username
    email := updates.email.getD current.email
    password_hash := updates.password_hash.getD current.password_hash }

/-- The session a successful `createUser` leaves behind: the new row
appended, the id sequence and clock advanced, the transaction closed. -/
def afterCreate (u : NewUser) (s : Session) : Session :=
  { table := s.table ++ [newRow u s]
    nextId := s.nextId + 1
    clock := s.clock + 1
    txSnapshot := none }

/-- A fresh store: empty table, AUTOINCREMENT sequence at 1. -/
def emptySession : Session :=
  { table := [], nextId := 1, clock := 0, txSnapshot := none }

/-- Concrete fixtures used to instantiate the theorems below. -/
def aliceNew : NewUser :=
  { username := "alice", email := "a@x", password_hash := "h1" }

def aliceRow : User :=
  { id := 1, username := "alice", email := "a@x", password_hash := "h1", created_at := "0" }

def aliceSession : Session :=
  { table := [aliceRow], nextId := 2, clock := 1, txSnapshot := none }

def carolNew : NewUser :=
  { username := "carol", email := "c@x", password_hash := "h3" }

def carolRow : User :=
  { id := 2, username := "carol", email := "c@x", password_hash := "h3", created_at := "1" }

def twoUserSession : Session :=
  { table := [aliceRow, carolRow], nextId := 3, clock := 2, txSnapshot := none }

/-! ### Helper lemmas about the statement primitives -/

theorem selectById_append_fresh (l : List User) (row : User) (n : Nat)
    (hl : ∀ r ∈ l, r.id ≠ n) (hrow : row.id = n) :
    selectById (l ++ [row]) n = some row := by
  unfold selectById
  rw [List.find?_append]
  have h1 : l.find? (fun r => r.id == n) = none := by
    rw [List.find?_eq_none]
    intro r hr
    simp [hl r hr]
  rw [h1]
  simp [List.find?, hrow]

theorem selectById_filter_ne (l : List User) (n : Nat) :
    selectById (l.filter (fun r => r.id != n)) n = none := by
  unfold selectById
  rw [List.find?_eq_none]
  intro r hr
  have h2 := (List.mem_filter.mp hr).2
  simp only [bne_iff_ne, ne_eq] at h2
  simp [h2]

theorem countP_ne_zero_of_selectById {l : List User} {n : Nat} {a : User}
    (h : selectById l n = some a) : l.countP (fun r => r.id == n) ≠ 0 := by
  have ha := List.mem_of_find?_eq_some h
  have hpa := List.find?_some h
  have hpos : 0 < l.countP (fun r => r.id == n) := List.countP_pos_iff.mpr ⟨a, ha, hpa⟩
  omega

theorem selectById_map_rewrite (l : List User) (n : Nat) (g : User → User)
    (hg : ∀ r, (g r).id = r.id) :
    selectById (l.map (fun r => if r.id == n then g r else r)) n
      = (selectById l n).map g := by
  induction l with
  | nil => rfl
  | cons r t ih =>
    by_cases hr : r.id = n
    · have hgr : (g r).id = n := by rw [hg r, hr]
      simp [selectById, List.find?_cons, hr, hgr] at ih ⊢
    · simp only [List.map_cons]
      rw [selectById, List.find?_cons, selectById, List.find?_cons]
      have hif : (if (r.id == n) = true then g r else r) = r := by
        simp [hr]
      rw [hif]
      have hpr : (r.id == n) = false := by
        simp [hr]
      rw [hpr]
      simpa [selectById] using ih

/-! ### Characterisations of the accessors -/

theorem createUser_conflict_err (u : NewUser) (s : Session)
    (htx : s.txSnapshot = none) (hconf : insertConflict u s.table = true) :
    createUser u s = Res.err (Err.userAlreadyExists (alreadyExistsMessage u)) s := by
  obtain ⟨tbl, nid, clk, tx⟩ := s
  simp only at htx
  subst htx
  unfold createUser withTransaction createUserBody runInsert execBegin execRollback
  simp only at hconf
  simp [hconf, Res.bind, Res.tryCatch, createUserHandler, Err.code]

theorem createUser_ok_char (u : NewUser) (s : Session)
    (hids : ∀ r ∈ s.table, r.id < s.nextId) (htx : s.txSnapshot = none)
    (hconf : insertConflict u s.table = false) :
    createUser u s = Res.ok (newRow u s) (afterCreate u s) := by
  obtain ⟨tbl, nid, clk, tx⟩ := s
  simp only at htx hids
  subst htx
  have hsel : selectById (tbl ++ [newRow u ⟨tbl, nid, clk, none⟩]) nid
      = some (newRow u ⟨tbl, nid, clk, none⟩) :=
    selectById_append_fresh tbl _ nid (fun r hr => Nat.ne_of_lt (hids r hr)) rfl
  unfold createUser withTransaction createUserBody runInsert execBegin execCommit afterCreate
  simp only at hconf
  simp [hconf, Res.bind, Res.tryCatch]
  simp only [newRow] at hsel ⊢
  simp [hsel]

theorem createUser_ok_inv (u : NewUser) (s : Session) (r1 : User) (s1 : Session)
    (hids : ∀ r ∈ s.table, r.id < s.nextId) (htx : s.txSnapshot = none)
    (h : createUser u s = Res.ok r1 s1) :
    insertConflict u s.table = false ∧ r1 = newRow u s ∧ s1 = afterCreate u s := by
  cases hconf : insertConflict u s.table with
  | false =>
    have hchar := createUser_ok_char u s hids htx hconf
    rw [hchar] at h
    injection h with h1 h2
    exact ⟨rfl, h1.symm, h2.symm⟩
  | true =>
    rw [createUser_conflict_err u s htx hconf] at h
    exact absurd h (by simp)

theorem updateUser_notfound_char (id : Nat) (upd : PartialNewUser) (s : Session)
    (htx : s.txSnapshot = none) (hnone : selectById s.table id = none) :
    updateUser id upd s
      = Res.err (Err.userNotFound ("User with ID " ++ toString id ++ " not found")) s := by
  obtain ⟨tbl, nid, clk, tx⟩ := s
  simp only at htx hnone
  subst htx
  unfold updateUser withTransaction getUserById execBegin execRollback
  simp [hnone, Res.bind]


theorem Res.bind_ok {α β : Type} (v : α) (s : Session) (f : α → Session → Res β) :
    Res.bind (Res.ok v s) f = f v s := rfl

theorem Res.bind_err {α β : Type} (e : Err) (s : Session) (f : α → Session → Res β) :
    Res.bind (Res.err e s) f = Res.err e s := rfl

theorem updateUser_conflict_char (id : Nat) (upd : PartialNewUser) (s : Session) (cur : User)
    (htx : s.txSnapshot = none) (hcur : selectById s.table id = some cur)
    (hconf : updateConflict id (upd.username.getD cur.username)
               (upd.email.getD cur.email) s.table = true) :
    updateUser id upd s
      = Res.err (Err.sqliteError "SQLITE_CONSTRAINT" "UNIQUE constraint failed: users") s := by
  obtain ⟨tbl, nid, clk, tx⟩ := s
  simp only at htx hcur hconf
  subst htx
  have hcur' : tbl.find? (fun r => r.id == id) = some cur := hcur
  have hmem := List.find?_some hcur'
  simp only at hmem
  have hany : tbl.any (fun r => r.id == id) = true :=
    List.any_eq_true.mpr ⟨cur, List.mem_of_find?_eq_some hcur', hmem⟩
  simp only [updateUser, withTransaction, getUserById, runUpdate, execBegin, execCommit,
    execRollback, Res.bind]
  rw [hcur]
  simp only []
  rw [hany, hconf]
  simp

theorem updateUser_ok_char (id : Nat) (upd : PartialNewUser) (s : Session) (cur : User)
    (htx : s.txSnapshot = none) (hcur : selectById s.table id = some cur)
    (hconf : updateConflict id (upd.username.getD cur.username)
               (upd.email.getD cur.email) s.table = false) :
    updateUser id upd s = Res.ok (mergeUser cur upd)
      { s with table := s.table.map (fun r =>
          if r.id == id then
            writeRow (upd.username.getD cur.username) (upd.email.getD cur.email)
              (upd.password_hash.getD cur.password_hash) r
          else r) } := by
  obtain ⟨tbl, nid, clk, tx⟩ := s
  simp only at htx hcur hconf
  subst htx
  have hsel : selectById
      (tbl.map (fun r =>
        if r.id == id then
          writeRow (upd.username.getD cur.username) (upd.email.getD cur.email)
            (upd.password_hash.getD cur.password_hash) r
        else r)) id
      = some (writeRow (upd.username.getD cur.username) (upd.email.getD cur.email)
          (upd.password_hash.getD cur.password_hash) cur) := by
    rw [selectById_map_rewrite tbl id
      (writeRow (upd.username.getD cur.username) (upd.email.getD cur.email)
        (upd.password_hash.getD cur.password_hash)) (fun r => rfl), hcur]
    rfl
  simp only [updateUser, withTransaction, getUserById, runUpdate, execBegin, execCommit,
    Res.bind]
  rw [hcur]
  simp only []
  rw [hconf]
  simp only [Bool.and_false, Bool.false_eq_true, if_false]
  rw [hsel]
  simp only [mergeUser, writeRow]

theorem deleteUser_notfound_char (id : Nat) (s : Session)
    (htx : s.txSnapshot = none) (hnone : selectById s.table id = none) :
    deleteUser id s
      = Res.err (Err.userNotFound ("User with ID " ++ toString id ++ " not found")) s := by
  obtain ⟨tbl, nid, clk, tx⟩ := s
  simp only at htx hnone
  subst htx
  simp only [deleteUser, withTransaction, execBegin, execRollback]
  rw [hnone]

theorem deleteUser_ok_char (id : Nat) (s : Session) (cur : User)
    (htx : s.txSnapshot = none) (hcur : selectById s.table id = some cur) :
    deleteUser id s = Res.ok cur { s with table := s.table.filter (fun r => r.id != id) } := by
  obtain ⟨tbl, nid, clk, tx⟩ := s
  simp only at htx hcur
  subst htx
  have hcnt : tbl.countP (fun r => r.id == id) ≠ 0 := countP_ne_zero_of_selectById hcur
  simp only [deleteUser, withTransaction, runDelete, execBegin, execCommit, Res.bind]
  rw [hcur]
  simp only []
  simp [hcnt]

theorem updateUser_ok_reread (id : Nat) (upd : PartialNewUser) (s : Session) (u : User) (s' : Session)
    (h : updateUser id upd s = Res.ok u s') :
    getUserById id s' = Res.ok u s' := by
  simp only [updateUser, withTransaction, Res.bind, getUserById, runUpdate, execBegin,
    execCommit] at h
  cases hget : selectById s.table id with
  | none =>
    rw [hget] at h
    simp at h
  | some cur =>
    rw [hget] at h
    simp only [] at h
    cases hcond : ((s.table.any fun r => r.id == id) &&
        updateConflict id (upd.username.getD cur.username) (upd.email.getD cur.email) s.table) with
    | true =>
      rw [hcond] at h
      simp at h
    | false =>
      rw [hcond] at h
      simp only [Bool.false_eq_true, if_false] at h
      cases hsel : selectById
          (s.table.map (fun r =>
            if r.id == id then
              writeRow (upd.username.getD cur.username) (upd.email.getD cur.email)
                (upd.password_hash.getD cur.password_hash) r
            else r)) id with
      | none =>
        rw [hsel] at h
        simp at h
      | some v =>
        rw [hsel] at h
        simp only [Res.ok.injEq] at h
        obtain ⟨hu, hs⟩ := h
        subst hu
        subst hs
        simp only [getUserById]
        rw [hsel]

theorem getUserById_afterCreate (u : NewUser) (s : Session)
    (hbound : ∀ r ∈ s.table, r.id < s.nextId) :
    getUserById (newRow u s).id (afterCreate u s) = Res.ok (newRow u s) (afterCreate u s) := by
  have hsel : selectById (afterCreate u s).table (newRow u s).id = some (newRow u s) := by
    simp only [afterCreate]
    exact selectById_append_fresh s.table (newRow u s) (newRow u s).id
      (fun r hr => by
        have hb := hbound r hr
        simp only [newRow]
        omega) rfl
  simp only [getUserById]
  rw [hsel]

/-! ### Claim theorems -/

/-- C6: `getAllUsers` returns every user row ordered by ascending id
regardless of insertion order (a permutation of the stored rows, sorted
by id), and an empty collection — not an error — when no users exist. -/
theorem getAllUsers_ordered (s : Session) :
    getAllUsers s = Res.ok (selectAllOrderById s.table) s ∧
    (selectAllOrderById s.table).Perm s.table ∧
    List.Sorted idLe (selectAllOrderById s.table) ∧
    (s.table = [] → getAllUsers s = Res.ok [] s) := by
  refine ⟨rfl, List.perm_insertionSort idLe s.table, List.sorted_insertionSort idLe s.table, ?_⟩
  intro h
  simp [getAllUsers, selectAllOrderById, h]

theorem getAllUsers_ordered_witness :
    (selectAllOrderById twoUserSession.table).Perm twoUserSession.table ∧
    List.Sorted idLe (selectAllOrderById twoUserSession.table) ∧
    getAllUsers emptySession = Res.ok [] emptySession :=
  ⟨(getAllUsers_ordered twoUserSession).2.1,
   (getAllUsers_ordered twoUserSession).2.2.1,
   (getAllUsers_ordered emptySession).2.2.2 rfl⟩

/-- C7: `withTransaction` issues BEGIN, runs the operation, and commits
on success keeping its effects; on any failure it rolls the data back to
the pre-transaction snapshot and re-raises the original error unchanged
(provided the operation did not itself tamper with the open-transaction
marker, i.e. no unsupported nesting). -/
theorem withTransaction_bracketing {α : Type} (fn : Session → Res α) (s : Session) :
    (∀ v s1, fn (execBegin s) = Res.ok v s1 →
       withTransaction fn s = Res.ok v { s1 with txSnapshot := none }) ∧
    (∀ e s1, fn (execBegin s) = Res.err e s1 →
       s1.txSnapshot = (execBegin s).txSnapshot →
       withTransaction fn s = Res.err e
         { table := s.table, nextId := s.nextId, clock := s1.clock, txSnapshot := none }) := by
  constructor
  · intro v s1 h
    simp only [withTransaction]
    rw [h]
    rfl
  · intro e s1 h htx
    simp only [withTransaction]
    rw [h]
    simp only [execRollback, htx, execBegin]

theorem withTransaction_bracketing_witness :
    withTransaction (fun s => Res.ok 7 s) emptySession = Res.ok 7 emptySession ∧
    withTransaction
        (fun s => (Res.err (Err.userNotFound "boom") { s with table := [aliceRow] } : Res Nat))
        emptySession
      = Res.err (Err.userNotFound "boom") emptySession :=
  ⟨(withTransaction_bracketing (fun s => Res.ok 7 s) emptySession).1 7
      (execBegin emptySession) rfl,
   (withTransaction_bracketing
      (fun s => (Res.err (Err.userNotFound "boom") { s with table := [aliceRow] } : Res Nat))
      emptySession).2 (Err.userNotFound "boom")
      { execBegin emptySession with table := [aliceRow] } rfl rfl⟩

/-- C9: `createUser` wraps its whole transaction body — the INSERT and
the read-back alike — in one catch, and that catch turns every error
whose `code` is `SQLITE_CONSTRAINT` (a NOT NULL violation as much as a
uniqueness violation) into `UserAlreadyExistsError`. -/
theorem createUser_remaps_every_constraint_code (u : NewUser) :
    (∀ s, createUser u s
        = withTransaction (fun s0 => Res.tryCatch (createUserBody u s0) (createUserHandler u)) s) ∧
    (∀ e s, e.code = some "SQLITE_CONSTRAINT" →
       createUserHandler u e s = Res.err (Err.userAlreadyExists (alreadyExistsMessage u)) s) := by
  constructor
  · intro s
    rfl
  · intro e s h
    simp [createUserHandler, h]

theorem createUser_remaps_every_constraint_code_witness :
    createUser aliceNew emptySession
      = withTransaction
          (fun s0 => Res.tryCatch (createUserBody aliceNew s0) (createUserHandler aliceNew))
          emptySession ∧
    createUserHandler aliceNew
        (Err.sqliteError "SQLITE_CONSTRAINT" "NOT NULL constraint failed: users.password_hash")
        emptySession
      = Res.err (Err.userAlreadyExists (alreadyExistsMessage aliceNew)) emptySession :=
  ⟨(createUser_remaps_every_constraint_code aliceNew).1 emptySession,
   (createUser_remaps_every_constraint_code aliceNew).2
     (Err.sqliteError "SQLITE_CONSTRAINT" "NOT NULL constraint failed: users.password_hash")
     emptySession rfl⟩

/-- C3: `deleteUser(id)` fails with `UserNotFoundError` when no row has
that id; on success it returns the row exactly as it existed immediately
before removal, and a subsequent `getUserById(id)` fails with
`UserNotFoundError`. -/
theorem deleteUser_spec (id : Nat) (s : Session) (htx : s.txSnapshot = none) :
    (selectById s.table id = none →
       deleteUser id s
         = Res.err (Err.userNotFound ("User with ID " ++ toString id ++ " not found")) s) ∧
    (∀ cur, selectById s.table id = some cur →
       ∃ s', deleteUser id s = Res.ok cur s' ∧
         getUserById id s'
           = Res.err (Err.userNotFound ("User with ID " ++ toString id ++ " not found")) s') := by
  constructor
  · intro hnone
    exact deleteUser_notfound_char id s htx hnone
  · intro cur hcur
    refine ⟨{ s with table := s.table.filter (fun r => r.id != id) },
      deleteUser_ok_char id s cur htx hcur, ?_⟩
    have hsel : selectById (s.table.filter (fun r => r.id != id)) id = none :=
      selectById_filter_ne s.table id
    simp only [getUserById]
    rw [hsel]

theorem deleteUser_spec_witness :
    (∃ s', deleteUser 1 aliceSession = Res.ok aliceRow s' ∧
       getUserById 1 s' = Res.err (Err.userNotFound "User with ID 1 not found") s') ∧
    deleteUser 5 aliceSession
      = Res.err (Err.userNotFound "User with ID 5 not found") aliceSession :=
  ⟨(deleteUser_spec 1 aliceSession rfl).2 aliceRow rfl,
   (deleteUser_spec 5 aliceSession rfl).1 rfl⟩

/-- C5: `updateUser(id, updates)` fails with `UserNotFoundError` when no
row has that id; on success it returns a `User` value — never a null —
namely the row re-read from the store after the write. -/
theorem updateUser_total_spec (id : Nat) (upd : PartialNewUser) (s : Session) :
    (s.txSnapshot = none → selectById s.table id = none →
       updateUser id upd s
         = Res.err (Err.userNotFound ("User with ID " ++ toString id ++ " not found")) s) ∧
    (∀ u s', updateUser id upd s = Res.ok u s' → getUserById id s' = Res.ok u s') := by
  constructor
  · intro htx hnone
    exact updateUser_notfound_char id upd s htx hnone
  · intro u s' h
    exact updateUser_ok_reread id upd s u s' h

theorem updateUser_total_spec_witness :
    updateUser 9 { username := none, email := some "z@x", password_hash := none } aliceSession
      = Res.err (Err.userNotFound "User with ID 9 not found") aliceSession ∧
    getUserById 1
        { table := [{ aliceRow with email := "z@x" }], nextId := 2, clock := 1, txSnapshot := none }
      = Res.ok { aliceRow with email := "z@x" }
        { table := [{ aliceRow with email := "z@x" }], nextId := 2, clock := 1, txSnapshot := none } :=
  ⟨(updateUser_total_spec 9 { username := none, email := some "z@x", password_hash := none }
      aliceSession).1 rfl rfl,
   (updateUser_total_spec 1 { username := none, email := some "z@x", password_hash := none }
      aliceSession).2 { aliceRow with email := "z@x" }
      { table := [{ aliceRow with email := "z@x" }], nextId := 2, clock := 1, txSnapshot := none }
      (by decide)⟩

/-- C2: for every `NewUser` whose username and email differ from those
of all existing users, `createUser` succeeds with a `User`, and an
immediately following `getUserById` on the returned id yields a record
identical to the one `createUser` returned. -/
theorem createUser_then_getUserById (u : NewUser) (s : Session) (hwf : s.wf)
    (hdist : ∀ r ∈ s.table, r.username ≠ u.username ∧ r.email ≠ u.email) :
    ∃ usr s', createUser u s = Res.ok usr s' ∧ getUserById usr.id s' = Res.ok usr s' := by
  obtain ⟨hid, hun, hem, hbound, htx⟩ := hwf
  have hconf : insertConflict u s.table = false := by
    simp only [insertConflict]
    rw [List.any_eq_false]
    intro r hr
    have hd := hdist r hr
    simp [hd.1, hd.2]
  exact ⟨newRow u s, afterCreate u s, createUser_ok_char u s hbound htx hconf,
    getUserById_afterCreate u s hbound⟩

theorem createUser_then_getUserById_witness :
    Session.wf aliceSession ∧
    (∃ usr s', createUser carolNew aliceSession = Res.ok usr s' ∧
       getUserById usr.id s' = Res.ok usr s') :=
  ⟨by decide, createUser_then_getUserById carolNew aliceSession (by decide) (by decide)⟩

/-- C1: if the INSERT violates a uniqueness constraint, `createUser`
fails with `UserAlreadyExistsError` whose message carries the offending
username and email, while any error without the constraint code is
re-thrown unchanged; hence a second create reusing the username (or the
email) of a committed first create fails with `UserAlreadyExistsError`
and leaves the first record unmodified and retrievable. -/
theorem createUser_uniqueness_spec (u u1 u2 : NewUser) (s : Session) :
    (s.txSnapshot = none → insertConflict u s.table = true →
       createUser u s = Res.err (Err.userAlreadyExists (alreadyExistsMessage u)) s) ∧
    (∃ p q t, alreadyExistsMessage u = p ++ u.username ++ q ++ u.email ++ t) ∧
    (∀ e s1, e.code ≠ some "SQLITE_CONSTRAINT" → createUserHandler u e s1 = Res.err e s1) ∧
    (∀ r1 s1, s.wf → createUser u1 s = Res.ok r1 s1 →
       (u2.username = u1.username ∨ u2.email = u1.email) →
       createUser u2 s1 = Res.err (Err.userAlreadyExists (alreadyExistsMessage u2)) s1 ∧
       getUserById r1.id s1 = Res.ok r1 s1) := by
  refine ⟨createUser_conflict_err u s, ⟨_, _, _, rfl⟩, ?_, ?_⟩
  · intro e s1 hne
    have hb : (e.code == some "SQLITE_CONSTRAINT") = false := beq_eq_false_iff_ne.mpr hne
    simp [createUserHandler, hb]
  · intro r1 s1 hwf h1 hsame
    obtain ⟨hid, hun, hem, hbound, htx⟩ := hwf
    obtain ⟨hconf1, hr1, hs1⟩ := createUser_ok_inv u1 s r1 s1 hbound htx h1
    subst hr1
    subst hs1
    have hconf2 : insertConflict u2 (afterCreate u1 s).table = true := by
      simp only [afterCreate, insertConflict]
      rw [List.any_eq_true]
      refine ⟨newRow u1 s, by simp, ?_⟩
      cases hsame with
      | inl h => simp [newRow, h]
      | inr h => simp [newRow, h]
    exact ⟨createUser_conflict_err u2 (afterCreate u1 s) rfl hconf2,
      getUserById_afterCreate u1 s hbound⟩

theorem createUser_uniqueness_spec_witness :
    createUser { username := "alice", email := "b@x", password_hash := "h2" } aliceSession
      = Res.err (Err.userAlreadyExists
          "User with username \"alice\" or email \"b@x\" already exists") aliceSession ∧
    (∃ p q t, alreadyExistsMessage aliceNew = p ++ "alice" ++ q ++ "a@x" ++ t) ∧
    createUserHandler aliceNew (Err.userNotFound "User creation failed unexpectedly") emptySession
      = Res.err (Err.userNotFound "User creation failed unexpectedly") emptySession ∧
    getUserById 1 aliceSession = Res.ok aliceRow aliceSession :=
  ⟨(createUser_uniqueness_spec { username := "alice", email := "b@x", password_hash := "h2" }
      aliceNew aliceNew aliceSession).1 rfl rfl,
   (createUser_uniqueness_spec aliceNew aliceNew aliceNew emptySession).2.1,
   (createUser_uniqueness_spec aliceNew aliceNew aliceNew emptySession).2.2.1
     (Err.userNotFound "User creation failed unexpectedly") emptySession (by decide),
   ((createUser_uniqueness_spec aliceNew aliceNew
       { username := "alice", email := "b@x", password_hash := "h2" } emptySession).2.2.2
     aliceRow aliceSession (by decide) (by decide) (Or.inl rfl)).2⟩

/-- C4: for an existing user id, `updateUser` writes, for each of
username / email / password_hash, the caller-supplied value when present
and the current value otherwise (`mergeUser`); in particular an
email-only update returns (and stores) the old record with just the
email replaced — username, password_hash, id and created_at untouched —
and leaves every other row in place. -/
theorem updateUser_merge_semantics (id : Nat) (s : Session) (cur : User) (newEmail : String)
    (hwf : s.wf) (hcur : selectById s.table id = some cur)
    (hfresh : ∀ r ∈ s.table, r.id ≠ id → r.email ≠ newEmail) :
    (∀ upd : PartialNewUser,
       updateConflict id (upd.username.getD cur.username) (upd.email.getD cur.email) s.table
           = false →
       ∃ s', updateUser id upd s = Res.ok (mergeUser cur upd) s') ∧
    (∃ s', updateUser id { username := none, email := some newEmail, password_hash := none } s
         = Res.ok { cur with email := newEmail } s' ∧
       selectById s'.table id = some { cur with email := newEmail } ∧
       ∀ r ∈ s.table, r.id ≠ id → r ∈ s'.table) := by
  obtain ⟨hid, hun, hem, hbound, htx⟩ := hwf
  have hcur' : s.table.find? (fun r => r.id == id) = some cur := hcur
  have hmem := List.mem_of_find?_eq_some hcur'
  have hcurid : cur.id = id := by
    have hp := List.find?_some hcur'
    simpa using hp
  constructor
  · intro upd hconf
    exact ⟨_, updateUser_ok_char id upd s cur htx hcur hconf⟩
  · have hconf : updateConflict id cur.username newEmail s.table = false := by
      simp only [updateConflict]
      rw [List.any_eq_false]
      intro r hr
      by_cases hrid : r.id = id
      · simp [hrid]
      · have hru : r.username ≠ cur.username := by
          intro he
          have : r = cur := List.inj_on_of_nodup_map hun hr hmem he
          subst this
          exact hrid hcurid
        have hre : r.email ≠ newEmail := hfresh r hr hrid
        simp [hrid, hru, hre]
    have h := updateUser_ok_char id { username := none, email := some newEmail, password_hash := none }
      s cur htx hcur hconf
    simp only [Option.getD_none, Option.getD_some] at h
    refine ⟨_, h, ?_, ?_⟩
    · simp only [Option.getD_none, Option.getD_some]
      rw [selectById_map_rewrite s.table id (writeRow cur.username newEmail cur.password_hash)
        (fun r => rfl), hcur]
      rfl
    · intro r hr hrid
      simp only [Option.getD_none, Option.getD_some]
      have hfr : (if r.id == id then writeRow cur.username newEmail cur.password_hash r else r)
          = r := by
        simp [hrid]
      have hm : (if r.id == id then writeRow cur.username newEmail cur.password_hash r else r)
          ∈ s.table.map
            (fun r => if r.id == id then writeRow cur.username newEmail cur.password_hash r else r) :=
        List.mem_map_of_mem _ hr
      rw [hfr] at hm
      exact hm

theorem updateUser_merge_semantics_witness :
    (∃ s', updateUser 1 { username := some "al2", email := none, password_hash := some "h9" }
         twoUserSession
       = Res.ok (mergeUser aliceRow
           { username := some "al2", email := none, password_hash := some "h9" }) s') ∧
    (∃ s', updateUser 1 { username := none, email := some "z@x", password_hash := none }
         twoUserSession
       = Res.ok { aliceRow with email := "z@x" } s' ∧
       selectById s'.table 1 = some { aliceRow with email := "z@x" } ∧
       ∀ r ∈ twoUserSession.table, r.id ≠ 1 → r ∈ s'.table) :=
  ⟨(updateUser_merge_semantics 1 twoUserSession aliceRow "z@x" (by decide) (by decide)
      (by decide)).1 { username := some "al2", email := none, password_hash := some "h9" }
      (by decide),
   (updateUser_merge_semantics 1 twoUserSession aliceRow "z@x" (by decide) (by decide)
      (by decide)).2⟩

/-- C10: for an existing user id, `updateUser` with no supplied fields
(in JS, absent and explicitly-null fields behave identically under the
`??` fallback) is an identity operation: it rewrites the three mutable
columns with their current values, returns the pre-call record, and
leaves the whole stored state unchanged. -/
theorem updateUser_empty_is_identity (id : Nat) (s : Session) (cur : User)
    (hwf : s.wf) (hcur : selectById s.table id = some cur) :
    updateUser id { username := none, email := none, password_hash := none } s
      = Res.ok cur s := by
  obtain ⟨hid, hun, hem, hbound, htx⟩ := hwf
  have hcur' : s.table.find? (fun r => r.id == id) = some cur := hcur
  have hmem := List.mem_of_find?_eq_some hcur'
  have hcurid : cur.id = id := by
    have hp := List.find?_some hcur'
    simpa using hp
  have hconf : updateConflict id cur.username cur.email s.table = false := by
    simp only [updateConflict]
    rw [List.any_eq_false]
    intro r hr
    by_cases hrid : r.id = id
    · simp [hrid]
    · have hru : r.username ≠ cur.username := by
        intro he
        have : r = cur := List.inj_on_of_nodup_map hun hr hmem he
        subst this
        exact hrid hcurid
      have hre : r.email ≠ cur.email := by
        intro he
        have : r = cur := List.inj_on_of_nodup_map hem hr hmem he
        subst this
        exact hrid hcurid
      simp [hrid, hru, hre]
  have h := updateUser_ok_char id { username := none, email := none, password_hash := none }
    s cur htx hcur hconf
  have hmap : s.table.map
      (fun r => if r.id == id then writeRow cur.username cur.email cur.password_hash r else r)
      = s.table := by
    have hpt : ∀ r ∈ s.table,
        (if r.id == id then writeRow cur.username cur.email cur.password_hash r else r) = r := by
      intro r hr
      by_cases hrid : r.id = id
      · have hrc : r = cur := List.inj_on_of_nodup_map hid hr hmem (by rw [hrid, hcurid])
        subst hrc
        have hb : (r.id == id) = true := by simp [hrid]
        rw [if_pos hb]
        rfl
      · simp [hrid]
    rw [List.map_congr_left hpt, List.map_id']
  simp only [Option.getD_none] at h
  rw [h, hmap]
  rfl

theorem updateUser_empty_is_identity_witness :
    updateUser 2 { username := none, email := none, password_hash := none } twoUserSession
      = Res.ok carolRow twoUserSession :=
  updateUser_empty_is_identity 2 twoUserSession carolRow (by decide) (by decide)

/-- C8: a uniqueness violation raised during `updateUser`'s UPDATE
surfaces as the raw store failure carrying code `SQLITE_CONSTRAINT`,
never as `UserAlreadyExistsError` — `updateUser` has no
constraint-violation remapping, unlike `createUser`, which turns the
same conflict into `UserAlreadyExistsError`. -/
theorem updateUser_conflict_not_remapped (id : Nat) (s : Session) (cur other : User)
    (newEmail : String) (u : NewUser)
    (htx : s.txSnapshot = none) (hcur : selectById s.table id = some cur)
    (hother : other ∈ s.table) (hoid : other.id ≠ id) (hoe : other.email = newEmail)
    (hue : u.email = newEmail) :
    updateUser id { username := none, email := some newEmail, password_hash := none } s
      = Res.err (Err.sqliteError "SQLITE_CONSTRAINT" "UNIQUE constraint failed: users") s ∧
    (∀ m st, updateUser id { username := none, email := some newEmail, password_hash := none } s
       ≠ Res.err (Err.userAlreadyExists m) st) ∧
    createUser u s = Res.err (Err.userAlreadyExists (alreadyExistsMessage u)) s := by
  have hconf : updateConflict id cur.username newEmail s.table = true := by
    simp only [updateConflict]
    rw [List.any_eq_true]
    exact ⟨other, hother, by simp [hoid, hoe]⟩
  have hupd := updateUser_conflict_char id
    { username := none, email := some newEmail, password_hash := none } s cur htx hcur hconf
  refine ⟨hupd, ?_, ?_⟩
  · intro m st
    rw [hupd]
    simp
  · have hic : insertConflict u s.table = true := by
      simp only [insertConflict]
      rw [List.any_eq_true]
      refine ⟨other, hother, ?_⟩
      rw [hoe, hue]
      simp
    exact createUser_conflict_err u s htx hic

theorem updateUser_conflict_not_remapped_witness :
    updateUser 1 { username := none, email := some "c@x", password_hash := none } twoUserSession
      = Res.err (Err.sqliteError "SQLITE_CONSTRAINT" "UNIQUE constraint failed: users")
          twoUserSession ∧
    (∀ m st,
       updateUser 1 { username := none, email := some "c@x", password_hash := none }
           twoUserSession
         ≠ Res.err (Err.userAlreadyExists m) st) ∧
    createUser { username := "dora", email := "c@x", password_hash := "h4" } twoUserSession
      = Res.err (Err.userAlreadyExists
          (alreadyExistsMessage { username := "dora", email := "c@x", password_hash := "h4" }))
          twoUserSession :=
  updateUser_conflict_not_remapped 1 twoUserSession aliceRow carolRow "c@x"
    { username := "dora", email := "c@x", password_hash := "h4" }
    rfl (by decide) (by decide) (by decide) (by decide) rfl
